import Mathlib

/-!
Verification development for the streamcloud crypto dashboard repository.

The repository is a Streamlit portal (src/app/main.py) routing to four token
dashboards (src/students/student_twinkle.py, student_nidhi.py,
student_rohan.py, student_paul.py).  This file is a shallow embedding of the
data model and the operations of those files:

  * JSON payloads are modelled by the inductive type Json.
  * Each HTTP GET attempt is abstracted by an oracle giving, per attempt
    index, either a transport exception or a status code and body
    (HttpResult).  The fetch helpers of the four modules are translated into
    total Lean functions that also report how many GET attempts were made and
    which inter-attempt sleeps were executed (FetchTrace).
  * The Streamlit render of each app() function is modelled as the list of
    data-dependent widgets it emits (Piece), in source order; constant
    headings, CSS and string formatting of numbers are abstracted away, and a
    panel is modelled by the raw payload it consumes.
  * The router of src/app/main.py is modelled over an import environment
    mapping module names to the entry attributes they expose.
  * The st.cache_data memoization layer is an external framework feature; it
    is modelled from the spec where a claim needs it.
-/

/-- JSON values as returned by response.json() in the source. -/
inductive Json where
  | null : Json
  | bool : Bool → Json
  | num : ℚ → Json
  | str : String → Json
  | arr : List Json → Json
  | obj : List (String × Json) → Json

/-- Python truthiness of a JSON value: None, False, 0, empty string, empty
list and empty dict are falsy, everything else is truthy. -/
def Json.truthy : Json → Bool
  | .null => false
  | .bool b => b
  | .num q => q != 0
  | .str s => s != ""
  | .arr xs => !xs.isEmpty
  | .obj kvs => !kvs.isEmpty

/-- isinstance(x, list) in the source. -/
def Json.isList : Json → Bool
  | .arr _ => true
  | _ => false

/-- isinstance(x, dict) in the source. -/
def Json.isDict : Json → Bool
  | .obj _ => true
  | _ => false

/-- Python dict.get(k): the value of the first field named k, if any. -/
def Json.getKey : Json → String → Option Json
  | .obj kvs, k => (kvs.find? (fun kv => kv.1 == k)).map (fun kv => kv.2)
  | _, _ => none

/-- Python membership test k in j for the payload shapes the source feeds it:
key membership for dicts, element equality for lists, false otherwise. -/
def Json.hasMember (j : Json) (k : String) : Bool :=
  match j with
  | .obj kvs => kvs.any (fun kv => kv.1 == k)
  | .arr xs => xs.any (fun x => match x with | .str s => s == k | _ => false)
  | _ => false

/-- Truthiness of an optional payload: a missing payload (Python None) is
falsy. -/
def Json.truthyOpt : Option Json → Bool
  | some j => j.truthy
  | none => false

/-- Outcome of one HTTP GET attempt: a transport-level exception, or a
response with its status code and parsed JSON body. -/
inductive HttpResult (α : Type) where
  | exn : HttpResult α
  | status : Nat → α → HttpResult α

/-- The attempt failed: a transport exception or an HTTP error status
(400 or above, exactly the statuses on which requests.raise_for_status
raises). -/
def HttpResult.failed : HttpResult α → Prop
  | .exn => True
  | .status c _ => 400 ≤ c

/-- Collapse every failure class into a bare exception, keeping successful
responses.  Used to state that a fetcher does not distinguish between
transport errors and HTTP error statuses. -/
def collapse_failure : HttpResult α → HttpResult α
  | .exn => .exn
  | .status c b => if c < 400 then .status c b else .exn

/-- Result of running a fetch helper: the value returned to the caller,
the number of GET attempts actually issued, and the list of executed
inter-attempt sleep durations in order. -/
structure FetchTrace (α : Type) where
  result : Option α
  requests : Nat
  sleeps : List ℚ

/-- Embedding of student_twinkle._fetch, parameterized over the remaining
attempt budget (source: retries, counted down) and the current attempt index.
One attempt left corresponds to the final loop iteration, where the source
returns None on failure without sleeping; otherwise a failure sleeps for
delay and retries.  requests.raise_for_status treats every status below 400
as success. -/
def twinkle_fetch_go (oracle : Nat → HttpResult Json) (delay : ℚ) :
    Nat → Nat → FetchTrace Json
  | 0, _ => ⟨none, 0, []⟩
  | 1, attempt =>
    match oracle attempt with
    | .status c body => if c < 400 then ⟨some body, 1, []⟩ else ⟨none, 1, []⟩
    | .exn => ⟨none, 1, []⟩
  | remaining + 2, attempt =>
    match oracle attempt with
    | .status c body =>
      if c < 400 then ⟨some body, 1, []⟩
      else
        let rest := twinkle_fetch_go oracle delay (remaining + 1) (attempt + 1)
        ⟨rest.result, rest.requests + 1, delay :: rest.sleeps⟩
    | .exn =>
      let rest := twinkle_fetch_go oracle delay (remaining + 1) (attempt + 1)
      ⟨rest.result, rest.requests + 1, delay :: rest.sleeps⟩

/-- student_twinkle._fetch(url, params, retries=3, delay=2). -/
def twinkle_fetch (oracle : Nat → HttpResult Json) : FetchTrace Json :=
  twinkle_fetch_go oracle 2 3 0

/-- The error text stored by student_paul._fetch on final failure
(source: an f-string of the exception class name and message; the exact
interpolation is abstracted). -/
def paul_describe_error : HttpResult Json → String
  | .exn => "ConnectionError: request failed"
  | .status c _ => "HTTPError: status " ++ toString c

/-- The sentinel dictionary student_paul._fetch returns after its final
failed attempt. -/
def paul_error_json (r : HttpResult Json) : Json :=
  Json.obj [("__error__", Json.str (paul_describe_error r))]

/-- Embedding of student_paul._fetch, same loop shape as the Ethereum
fetcher but returning the sentinel error dictionary instead of None after
the final failed attempt. -/
def paul_fetch_go (oracle : Nat → HttpResult Json) (delay : ℚ) :
    Nat → Nat → FetchTrace Json
  | 0, _ => ⟨none, 0, []⟩
  | 1, attempt =>
    match oracle attempt with
    | .status c body =>
      if c < 400 then ⟨some body, 1, []⟩
      else ⟨some (paul_error_json (oracle attempt)), 1, []⟩
    | .exn => ⟨some (paul_error_json (oracle attempt)), 1, []⟩
  | remaining + 2, attempt =>
    match oracle attempt with
    | .status c body =>
      if c < 400 then ⟨some body, 1, []⟩
      else
        let rest := paul_fetch_go oracle delay (remaining + 1) (attempt + 1)
        ⟨rest.result, rest.requests + 1, delay :: rest.sleeps⟩
    | .exn =>
      let rest := paul_fetch_go oracle delay (remaining + 1) (attempt + 1)
      ⟨rest.result, rest.requests + 1, delay :: rest.sleeps⟩

/-- student_paul._fetch(url, params, retries=3, delay=1.2, timeout=25). -/
def paul_fetch (oracle : Nat → HttpResult Json) : FetchTrace Json :=
  paul_fetch_go oracle (6 / 5) 3 0

/-- Embedding of student_rohan._fetch: a single GET attempt with no retry
loop; any exception (including raise_for_status on an error status) is
logged and None is returned. -/
def rohan_fetch (r : HttpResult Json) : FetchTrace Json :=
  match r with
  | .status c body => if c < 400 then ⟨some body, 1, []⟩ else ⟨none, 1, []⟩
  | .exn => ⟨none, 1, []⟩

/-- Embedding of student_nidhi.fetch_coingecko: up to three attempts;
success only on status exactly 200; a non-200 response falls through to the
next attempt with no sleep; an exception sleeps for 1 second (also on the
final attempt) before the loop continues or ends; None after the loop. -/
def nidhi_cg_go (oracle : Nat → HttpResult Json) : Nat → Nat → FetchTrace Json
  | 0, _ => ⟨none, 0, []⟩
  | remaining + 1, attempt =>
    match oracle attempt with
    | .status c body =>
      if c == 200 then ⟨some body, 1, []⟩
      else
        let rest := nidhi_cg_go oracle remaining (attempt + 1)
        ⟨rest.result, rest.requests + 1, rest.sleeps⟩
    | .exn =>
      let rest := nidhi_cg_go oracle remaining (attempt + 1)
      ⟨rest.result, rest.requests + 1, (1 : ℚ) :: rest.sleeps⟩

/-- student_nidhi.fetch_coingecko(endpoint, params): range(3) attempt loop. -/
def nidhi_fetch_coingecko (oracle : Nat → HttpResult Json) : FetchTrace Json :=
  nidhi_cg_go oracle 3 0

/-- Embedding of student_nidhi.fetch_prediction: one GET, body on status
200, None on any other status or exception. -/
def nidhi_fetch_prediction (r : HttpResult Json) : Option Json :=
  match r with
  | .status c body => if c == 200 then some body else none
  | .exn => none

/-- Embedding of student_nidhi.get_model_info: one GET, body on status 200,
None on any other status or exception. -/
def nidhi_get_model_info (r : HttpResult Json) : Option Json :=
  match r with
  | .status c body => if c == 200 then some body else none
  | .exn => none

/-- Trace of student_twinkle._warm_fastapi: one GET to the prediction
endpoint whose response is discarded; the bare except swallows every
failure, so the call never raises. -/
structure WarmTrace where
  requests : Nat
  raised : Bool

/-- student_twinkle._warm_fastapi, per attempt outcome. -/
def twinkle_warm_fastapi (r : HttpResult Json) : WarmTrace :=
  match r with
  | .exn => ⟨1, false⟩
  | .status _ _ => ⟨1, false⟩

/-! Cache time-to-live values, in seconds, exactly as annotated on the
st.cache_data decorators of each cached endpoint. -/

def twinkle_get_metadata_ttl : Nat := 600
def twinkle_get_live_market_ttl : Nat := 300
def twinkle_get_ohlc_ttl : Nat := 600
def twinkle_get_market_chart_ttl : Nat := 600
def nidhi_fetch_prediction_ttl : Nat := 900
def nidhi_get_model_info_ttl : Nat := 1800
def nidhi_fetch_coingecko_ttl : Nat := 1200
def nidhi_get_market_chart_ttl : Nat := 1200
def nidhi_get_ohlc_ttl : Nat := 1800
def nidhi_get_live_price_ttl : Nat := 1200
def nidhi_get_metadata_ttl : Nat := 1800
def rohan_get_live_market_ttl : Nat := 600
def rohan_get_ohlc_ttl : Nat := 600
def rohan_get_market_chart_ttl : Nat := 600
def rohan_get_metadata_ttl : Nat := 600
def paul_cg_live_ttl : Nat := 300
def paul_cg_ohlc_ttl : Nat := 600
def paul_cg_market_chart_ttl : Nat := 600
def paul_cg_metadata_ttl : Nat := 600

/-- Modelled from the spec: the st.cache_data memoization layer is part of
the hosting framework and its implementation is not in this repository.
A cache is a list of entries, each holding a key (endpoint identity plus
parameters), the memoized payload, and the time it was stored; the entry
expires at storedAt + ttl. -/
structure CacheEntry (κ α : Type) where
  key : κ
  value : α
  storedAt : Nat

/-- Modelled from the spec: a cache lookup returns the stored payload only
while the current time is before the expiry timestamp storedAt + ttl; an
entry older than its time-to-live is treated as absent. -/
def cache_lookup [DecidableEq κ] (entries : List (CacheEntry κ α))
    (ttl now : Nat) (k : κ) : Option α :=
  match entries.find? (fun e => e.key == k) with
  | some e => if now < e.storedAt + ttl then some e.value else none
  | none => none

/-- Modelled from the spec: a cached fetch first consults the cache; on a
hit it returns the memoized payload with no upstream request, on a miss it
calls upstream once and stores the fresh payload at the current time.
The third component counts the upstream requests issued by the call. -/
def cached_call [DecidableEq κ] (upstream : κ → α) (ttl : Nat)
    (entries : List (CacheEntry κ α)) (k : κ) (now : Nat) :
    α × List (CacheEntry κ α) × Nat :=
  match cache_lookup entries ttl now k with
  | some v => (v, entries, 0)
  | none => (upstream k, ⟨k, upstream k, now⟩ :: entries, 1)

/-! Router (src/app/main.py). -/

/-- The entry attributes a dynamically imported module may expose; the
router probes them with hasattr. -/
structure PyModule where
  has_show_ethereum_tab : Bool
  has_app : Bool
deriving DecidableEq

/-- An import environment: which module names import successfully, and what
entry attributes the imported module exposes.  importlib.import_module on an
unknown name raises, modelled by none. -/
def ImportEnv : Type := String → Option PyModule

/-- What the router leaves on the page for one request. -/
inductive RouteResult where
  | landing : RouteResult
  | renderedShowEthereumTab : String → RouteResult
  | renderedApp : String → RouteResult
  | noEntryNotice : String → RouteResult
  | loadErrorNotice : String → RouteResult
deriving DecidableEq

/-- src/app/main.py load_student_page: import the module named by the
selector; call show_ethereum_tab if present, else app if present, else show
an error notice; any exception (in particular a failing import) is caught
and shown as an error notice. -/
def load_student_page (env : ImportEnv) (name : String) : RouteResult :=
  match env name with
  | some m =>
    if m.has_show_ethereum_tab then .renderedShowEthereumTab name
    else if m.has_app then .renderedApp name
    else .noEntryNotice name
  | none => .loadErrorNotice name

/-- The four student modules of src/students. -/
def knownStudentModules : List String :=
  ["student_twinkle", "student_nidhi", "student_rohan", "student_paul"]

/-- The import environment provided by this repository: exactly the four
student modules, each exposing app() and none exposing show_ethereum_tab. -/
def studentsEnv : ImportEnv := fun name =>
  if name ∈ knownStudentModules then some ⟨false, true⟩ else none

/-- src/app/main.py module-level routing: read the student query parameter
(a single string value when present); if it is truthy (present and
non-empty) load the named student page, otherwise render the landing view. -/
def route (env : ImportEnv) (selector : Option String) : RouteResult :=
  match selector with
  | some s => if s == "" then .landing else load_student_page env s
  | none => .landing

/-! View renders.  A render is the list of data-dependent widgets emitted in
source order; headings, dividers, CSS and numeric string formatting are
abstracted, and a chart or panel is modelled by the payload it consumes. -/

/-- One data-dependent widget of a rendered page. -/
inductive Piece where
  | warmupSpawn : Piece
  | predictionIframe : String → Piece
  | snapshotPanel : Json → Piece
  | snapshotNotice : String → Piece
  | metadataPanel : Json → Piece
  | predictionPanel : Json → Piece
  | modelInfoPanel : Json → Piece
  | plotlyChart : Json → Piece
  | caption : String → Piece
  | jsonDump : Json → Piece
  | infoNotice : String → Piece
  | warnNotice : String → Piece
  | errorNotice : String → Piece
  | apiFailNotice : Json → Piece
  | httpErrorNotice : Nat → Piece
  | exceptionNotice : Piece

/-- st.plotly_chart applied to the result of a figure builder: renders the
figure when the builder produced one.  (In the source every such call sits
under a guard that makes the builder succeed.) -/
def chartPieces (fig : Option Json) : List Piece :=
  match fig with
  | some f => [Piece.plotlyChart f]
  | none => []

/-- student_twinkle.plot_candlestick: None for falsy input, else a figure of
the OHLC rows. -/
def twinkle_plot_candlestick (ohlc : Json) : Option Json :=
  if ohlc.truthy then some ohlc else none

/-- student_twinkle.plot_line: None for falsy input, else a figure of the
series. -/
def twinkle_plot_line (series : Json) : Option Json :=
  if series.truthy then some series else none

/-- student_nidhi.build_candlestick: None for falsy input, else a figure. -/
def nidhi_build_candlestick (ohlc : Json) : Option Json :=
  if ohlc.truthy then some ohlc else none

/-- student_nidhi.build_line_chart: None for falsy input, else a figure. -/
def nidhi_build_line_chart (series : Json) : Option Json :=
  if series.truthy then some series else none

/-- student_rohan.plot_candlestick: None for falsy input, else a figure. -/
def rohan_plot_candlestick (ohlc : Json) : Option Json :=
  if ohlc.truthy then some ohlc else none

/-- student_rohan.plot_line: None for falsy input, else a figure. -/
def rohan_plot_line (series : Json) : Option Json :=
  if series.truthy then some series else none

/-- student_paul._candlestick: None unless the payload is a non-empty list. -/
def paul_candlestick (ohlc : Json) : Option Json :=
  match ohlc with
  | .arr xs => if xs.isEmpty then none else some (.arr xs)
  | _ => none

/-- student_paul._line_series: None unless the payload is a non-empty list. -/
def paul_line_series (series : Json) : Option Json :=
  match series with
  | .arr xs => if xs.isEmpty then none else some (.arr xs)
  | _ => none

/-- The snapshot guard mk and COIN_ID in mk used by the Ethereum, Solana and
XRP views: the fetch returned a truthy payload containing the coin key. -/
def snapshotGuard (mk : Option Json) (coin : String) : Bool :=
  match mk with
  | some j => j.truthy && j.hasMember coin
  | none => false

/-- The coin sub-object mk[COIN_ID] read after the guard passes. -/
def coinData (mk : Option Json) (coin : String) : Json :=
  ((mk.getD Json.null).getKey coin).getD Json.null

/-- Market-chart block of student_twinkle.app: when the market_chart payload
is truthy, plot a line chart for each of market_caps and total_volumes whose
series is truthy (the loop over the two keys is unrolled). -/
def twinkle_mc_section (mc : Option Json) : List Piece :=
  if Json.truthyOpt mc then
    (if Json.truthyOpt ((mc.getD Json.null).getKey ("market_caps")) then
      chartPieces (twinkle_plot_line (((mc.getD Json.null).getKey ("market_caps")).getD Json.null))
    else [])
    ++
    (if Json.truthyOpt ((mc.getD Json.null).getKey ("total_volumes")) then
      chartPieces (twinkle_plot_line (((mc.getD Json.null).getKey ("total_volumes")).getD Json.null))
    else [])
  else []

/-- student_twinkle.app: spawn the warm-up thread, embed the prediction
iframe, then the snapshot, candlestick, market-chart and fundamentals
sections, each guarded on its own fetched payload. -/
def twinkle_app (today : String) (live ohlc mc meta : Option Json) : List Piece :=
  [Piece.warmupSpawn,
   Piece.predictionIframe
     ("https://fastapiethereum.onrender.com/predict/ethereum?date=" ++ today)]
  ++ (if snapshotGuard live ("ethereum") then
        [Piece.snapshotPanel (coinData live ("ethereum"))]
      else [Piece.snapshotNotice ("Data temporarily unavailable — please retry in a moment.")])
  ++ (if Json.truthyOpt ohlc then
        chartPieces (twinkle_plot_candlestick (ohlc.getD Json.null))
      else [Piece.infoNotice ("Price history unavailable right now.")])
  ++ twinkle_mc_section mc
  ++ (if Json.truthyOpt meta then [Piece.metadataPanel (meta.getD Json.null)]
      else [Piece.infoNotice ("Project fundamentals unavailable — please refresh later.")])

/-- Market-chart block of student_nidhi.app: prices, market_caps and
total_volumes series each rendered with a caption when truthy; a warning
when the whole payload is absent or falsy. -/
def nidhi_mc_section (mc : Option Json) : List Piece :=
  if Json.truthyOpt mc then
    (if Json.truthyOpt ((mc.getD Json.null).getKey ("prices")) then
      Piece.caption ("Price Trend (USD)") ::
        chartPieces (nidhi_build_line_chart (((mc.getD Json.null).getKey ("prices")).getD Json.null))
    else [])
    ++
    (if Json.truthyOpt ((mc.getD Json.null).getKey ("market_caps")) then
      Piece.caption ("Market Cap Trend (USD)") ::
        chartPieces (nidhi_build_line_chart (((mc.getD Json.null).getKey ("market_caps")).getD Json.null))
    else [])
    ++
    (if Json.truthyOpt ((mc.getD Json.null).getKey ("total_volumes")) then
      Piece.caption ("Trading Volume (USD)") ::
        chartPieces (nidhi_build_line_chart (((mc.getD Json.null).getKey ("total_volumes")).getD Json.null))
    else [])
  else [Piece.warnNotice ("No market data available.")]

/-- student_nidhi.app: prediction panel, live snapshot, coin overview,
model info, candlestick and market trends, in execution order (the two
layout columns run sequentially). -/
def nidhi_app (pred live meta info ohlc mc : Option Json) : List Piece :=
  (if Json.truthyOpt pred then [Piece.predictionPanel (pred.getD Json.null)]
   else [Piece.warnNotice ("Could not fetch prediction data from API.")])
  ++ (if snapshotGuard live ("solana") then
        [Piece.snapshotPanel (coinData live ("solana"))]
      else [Piece.snapshotNotice ("CoinGecko snapshot unavailable.")])
  ++ (if Json.truthyOpt meta then [Piece.metadataPanel (meta.getD Json.null)]
      else [Piece.infoNotice ("Metadata not available.")])
  ++ (if Json.truthyOpt info then [Piece.modelInfoPanel (info.getD Json.null)]
      else [Piece.infoNotice ("Model information unavailable (FastAPI might be offline).")])
  ++ (if Json.truthyOpt ohlc then
        chartPieces (nidhi_build_candlestick (ohlc.getD Json.null))
      else [Piece.infoNotice ("Candlestick data unavailable (API may be rate-limited).")])
  ++ nidhi_mc_section mc

/-- Market-chart block of student_rohan.app: market_caps and total_volumes
plotted when truthy; nothing at all when the payload is absent or falsy. -/
def rohan_mc_section (mc : Option Json) : List Piece :=
  if Json.truthyOpt mc then
    (if Json.truthyOpt ((mc.getD Json.null).getKey ("market_caps")) then
      chartPieces (rohan_plot_line (((mc.getD Json.null).getKey ("market_caps")).getD Json.null))
    else [])
    ++
    (if Json.truthyOpt ((mc.getD Json.null).getKey ("total_volumes")) then
      chartPieces (rohan_plot_line (((mc.getD Json.null).getKey ("total_volumes")).getD Json.null))
    else [])
  else []

/-- student_rohan.app: the prediction block runs only when the button was
pressed (run); it dumps the JSON on status 200 and shows an error notice on
any other status or on an exception.  Then snapshot, candlestick (no
fallback notice), market chart and fundamentals. -/
def rohan_app (run : Bool) (presp : HttpResult Json)
    (live ohlc mc meta : Option Json) : List Piece :=
  (if run then
    match presp with
    | .status c body =>
      if c == 200 then [Piece.jsonDump body] else [Piece.httpErrorNotice c]
    | .exn => [Piece.exceptionNotice]
   else [])
  ++ (if snapshotGuard live ("ripple") then
        [Piece.snapshotPanel (coinData live ("ripple"))]
      else [Piece.snapshotNotice ("Data unavailable.")])
  ++ (if Json.truthyOpt ohlc then
        chartPieces (rohan_plot_candlestick (ohlc.getD Json.null))
      else [])
  ++ rohan_mc_section mc
  ++ (if Json.truthyOpt meta then [Piece.metadataPanel (meta.getD Json.null)]
      else [Piece.infoNotice ("Fundamentals unavailable.")])

/-- Market-chart block of student_paul.app: only when the payload is a dict;
the source first collects the keys with truthy series and then plots each
through _line_series (the two phases are fused; a chart is emitted exactly
when the series is truthy and _line_series accepts it). -/
def paul_mc_section (mc : Json) : List Piece :=
  if mc.isDict then
    (if Json.truthyOpt (mc.getKey ("prices")) then
      chartPieces (paul_line_series ((mc.getKey ("prices")).getD Json.null))
    else [])
    ++
    (if Json.truthyOpt (mc.getKey ("market_caps")) then
      chartPieces (paul_line_series ((mc.getKey ("market_caps")).getD Json.null))
    else [])
    ++
    (if Json.truthyOpt (mc.getKey ("total_volumes")) then
      chartPieces (paul_line_series ((mc.getKey ("total_volumes")).getD Json.null))
    else [])
  else []

/-- student_paul.app: the prediction block runs only when the button was
pressed (run): an error notice carrying the __error__ payload when the
response is the sentinel dictionary, an error notice when the response is
not a dict, else the prediction panel and a raw-JSON expander.  Then the
snapshot (guarded by isinstance dict and key membership), candlestick with
fallback notice, market charts, and fundamentals guarded on the name key.
The fetch helpers of this module always return a value, so the inputs are
Json rather than Option Json. -/
def paul_app (run : Bool) (res mk ohlc mc meta : Json) : List Piece :=
  (if run then
    (if res.isDict && res.hasMember ("__error__") then
      [Piece.apiFailNotice ((res.getKey ("__error__")).getD Json.null)]
    else if !res.isDict then [Piece.errorNotice ("Unexpected response from API.")]
    else [Piece.predictionPanel res, Piece.jsonDump res])
   else [])
  ++ (if mk.isDict && mk.hasMember ("bitcoin") then
        [Piece.snapshotPanel ((mk.getKey ("bitcoin")).getD Json.null)]
      else [Piece.snapshotNotice ("CoinGecko might be rate-limited. Please retry.")])
  ++ (match paul_candlestick ohlc with
      | some fig => [Piece.plotlyChart fig]
      | none => [Piece.infoNotice ("Price history unavailable right now.")])
  ++ paul_mc_section mc
  ++ (if meta.isDict && meta.hasMember ("name") then [Piece.metadataPanel meta]
      else [Piece.infoNotice ("Fundamentals unavailable right now (likely rate-limit).")])

/-! Observers on render traces. -/

/-- The piece is the warm-up thread spawn. -/
def isWarmup : Piece → Bool
  | .warmupSpawn => true
  | _ => false

/-- Number of warm-up spawns in a render. -/
def countWarmups (ps : List Piece) : Nat := ps.countP isWarmup

/-- The piece belongs to the snapshot section: the populated panel or its
advisory notice. -/
def isSnapshotPiece : Piece → Bool
  | .snapshotPanel _ => true
  | .snapshotNotice _ => true
  | _ => false

/-- The piece is a populated snapshot panel. -/
def isSnapshotPanel : Piece → Bool
  | .snapshotPanel _ => true
  | _ => false

/-- The piece is the snapshot advisory notice. -/
def isSnapshotNotice : Piece → Bool
  | .snapshotNotice _ => true
  | _ => false

/-- Number of populated snapshot panels in a render. -/
def countSnapshotPanels (ps : List Piece) : Nat := ps.countP isSnapshotPanel

/-- Number of snapshot advisory notices in a render. -/
def countSnapshotNotices (ps : List Piece) : Nat := ps.countP isSnapshotNotice

/-- The render with the snapshot section (panel or notice) removed: what the
other sections contributed. -/
def nonSnapshot (ps : List Piece) : List Piece :=
  ps.filter (fun p => !isSnapshotPiece p)

/-- The piece renders fetched data as market content: any populated panel,
chart, or raw dump. -/
def isDataPanel : Piece → Bool
  | .snapshotPanel _ => true
  | .metadataPanel _ => true
  | .predictionPanel _ => true
  | .modelInfoPanel _ => true
  | .plotlyChart _ => true
  | .jsonDump _ => true
  | _ => false

/-- Number of pieces rendering fetched data as market content. -/
def countDataPanels (ps : List Piece) : Nat := ps.countP isDataPanel

/-! Helper lemmas about the fetch loops. -/

theorem twinkle_go_requests_le (oracle : Nat → HttpResult Json) (delay : ℚ) :
    ∀ remaining attempt, (twinkle_fetch_go oracle delay remaining attempt).requests ≤ remaining
  | 0, _ => by simp [twinkle_fetch_go]
  | 1, attempt => by
      cases h : oracle attempt with
      | exn => simp [twinkle_fetch_go, h]
      | status c b => simp only [twinkle_fetch_go, h]; split <;> simp
  | (m + 2), attempt => by
      have ih := twinkle_go_requests_le oracle delay (m + 1) (attempt + 1)
      cases h : oracle attempt with
      | exn => simp only [twinkle_fetch_go, h]; omega
      | status c b =>
          simp only [twinkle_fetch_go, h]
          split
          · simp
          · simp only []; omega

theorem twinkle_go_sleeps_eq (oracle : Nat → HttpResult Json) (delay : ℚ) :
    ∀ remaining attempt, ∀ s ∈ (twinkle_fetch_go oracle delay remaining attempt).sleeps, s = delay
  | 0, _ => by simp [twinkle_fetch_go]
  | 1, attempt => by
      cases h : oracle attempt with
      | exn => simp [twinkle_fetch_go, h]
      | status c b => simp only [twinkle_fetch_go, h]; split <;> simp
  | (m + 2), attempt => by
      have ih := twinkle_go_sleeps_eq oracle delay (m + 1) (attempt + 1)
      cases h : oracle attempt with
      | exn =>
          simp only [twinkle_fetch_go, h, List.mem_cons]
          rintro s (rfl | hmem)
          · rfl
          · exact ih s hmem
      | status c b =>
          simp only [twinkle_fetch_go, h]
          split
          · simp
          · simp only [List.mem_cons]
            rintro s (rfl | hmem)
            · rfl
            · exact ih s hmem

theorem twinkle_go_collapse (oracle : Nat → HttpResult Json) (delay : ℚ) :
    ∀ remaining attempt,
      twinkle_fetch_go (fun i => collapse_failure (oracle i)) delay remaining attempt
        = twinkle_fetch_go oracle delay remaining attempt
  | 0, _ => rfl
  | 1, attempt => by
      cases h : oracle attempt with
      | exn => simp [twinkle_fetch_go, collapse_failure, h]
      | status c b =>
          by_cases hc : c < 400 <;>
            simp [twinkle_fetch_go, collapse_failure, h, hc]
  | (m + 2), attempt => by
      have ih := twinkle_go_collapse oracle delay (m + 1) (attempt + 1)
      cases h : oracle attempt with
      | exn =>
          simp only [twinkle_fetch_go, h, ih]
          simp [collapse_failure]
      | status c b =>
          by_cases hc : c < 400
          · simp only [twinkle_fetch_go, h, ih]
            simp [collapse_failure, hc]
          · simp only [twinkle_fetch_go, h, ih]
            simp [collapse_failure, hc]

theorem twinkle_go_all_fail (oracle : Nat → HttpResult Json) (delay : ℚ)
    (hfail : ∀ i, (oracle i).failed) :
    ∀ remaining attempt, 1 ≤ remaining →
      twinkle_fetch_go oracle delay remaining attempt =
        ⟨none, remaining, List.replicate (remaining - 1) delay⟩
  | 0, _, h => absurd h (by omega)
  | 1, attempt, _ => by
      cases h : oracle attempt with
      | exn => simp [twinkle_fetch_go, h]
      | status c b =>
          have hc := hfail attempt
          rw [h] at hc
          simp only [HttpResult.failed] at hc
          simp [twinkle_fetch_go, h, show ¬ c < 400 by omega]
  | (m + 2), attempt, _ => by
      have ih := twinkle_go_all_fail oracle delay hfail (m + 1) (attempt + 1) (by omega)
      cases h : oracle attempt with
      | exn => simp [twinkle_fetch_go, h, ih, List.replicate_succ]
      | status c b =>
          have hc := hfail attempt
          rw [h] at hc
          simp only [HttpResult.failed] at hc
          simp [twinkle_fetch_go, h, ih, show ¬ c < 400 by omega, List.replicate_succ]

theorem paul_go_requests_le (oracle : Nat → HttpResult Json) (delay : ℚ) :
    ∀ remaining attempt, (paul_fetch_go oracle delay remaining attempt).requests ≤ remaining
  | 0, _ => by simp [paul_fetch_go]
  | 1, attempt => by
      cases h : oracle attempt with
      | exn => simp [paul_fetch_go, h]
      | status c b => simp only [paul_fetch_go, h]; split <;> simp
  | (m + 2), attempt => by
      have ih := paul_go_requests_le oracle delay (m + 1) (attempt + 1)
      cases h : oracle attempt with
      | exn => simp only [paul_fetch_go, h]; omega
      | status c b =>
          simp only [paul_fetch_go, h]
          split
          · simp
          · simp only []; omega

theorem paul_go_sleeps_eq (oracle : Nat → HttpResult Json) (delay : ℚ) :
    ∀ remaining attempt, ∀ s ∈ (paul_fetch_go oracle delay remaining attempt).sleeps, s = delay
  | 0, _ => by simp [paul_fetch_go]
  | 1, attempt => by
      cases h : oracle attempt with
      | exn => simp [paul_fetch_go, h]
      | status c b => simp only [paul_fetch_go, h]; split <;> simp
  | (m + 2), attempt => by
      have ih := paul_go_sleeps_eq oracle delay (m + 1) (attempt + 1)
      cases h : oracle attempt with
      | exn =>
          simp only [paul_fetch_go, h, List.mem_cons]
          rintro s (rfl | hmem)
          · rfl
          · exact ih s hmem
      | status c b =>
          simp only [paul_fetch_go, h]
          split
          · simp
          · simp only [List.mem_cons]
            rintro s (rfl | hmem)
            · rfl
            · exact ih s hmem

theorem paul_go_all_fail (oracle : Nat → HttpResult Json) (delay : ℚ)
    (hfail : ∀ i, (oracle i).failed) :
    ∀ remaining attempt, 1 ≤ remaining →
      (∃ r, (paul_fetch_go oracle delay remaining attempt).result = some (paul_error_json r)) ∧
      (paul_fetch_go oracle delay remaining attempt).requests = remaining ∧
      (paul_fetch_go oracle delay remaining attempt).sleeps = List.replicate (remaining - 1) delay
  | 0, _, h => absurd h (by omega)
  | 1, attempt, _ => by
      cases h : oracle attempt with
      | exn => exact ⟨⟨oracle attempt, by simp [paul_fetch_go, h]⟩, by simp [paul_fetch_go, h],
          by simp [paul_fetch_go, h]⟩
      | status c b =>
          have hc := hfail attempt
          rw [h] at hc
          simp only [HttpResult.failed] at hc
          refine ⟨⟨oracle attempt, ?_⟩, ?_, ?_⟩ <;>
            simp [paul_fetch_go, h, show ¬ c < 400 by omega]
  | (m + 2), attempt, _ => by
      have ih := paul_go_all_fail oracle delay hfail (m + 1) (attempt + 1) (by omega)
      obtain ⟨⟨r, hr⟩, hreq, hsl⟩ := ih
      cases h : oracle attempt with
      | exn =>
          refine ⟨⟨r, ?_⟩, ?_, ?_⟩ <;>
            simp [paul_fetch_go, h, hr, hreq, hsl, List.replicate_succ]
      | status c b =>
          have hc := hfail attempt
          rw [h] at hc
          simp only [HttpResult.failed] at hc
          refine ⟨⟨r, ?_⟩, ?_, ?_⟩ <;>
            simp [paul_fetch_go, h, hr, hreq, hsl, show ¬ c < 400 by omega,
              List.replicate_succ]

theorem nidhi_go_requests_le (oracle : Nat → HttpResult Json) :
    ∀ remaining attempt, (nidhi_cg_go oracle remaining attempt).requests ≤ remaining
  | 0, _ => by simp [nidhi_cg_go]
  | (m + 1), attempt => by
      have ih := nidhi_go_requests_le oracle m (attempt + 1)
      cases h : oracle attempt with
      | exn => simp only [nidhi_cg_go, h]; omega
      | status c b =>
          simp only [nidhi_cg_go, h]
          split
          · simp
          · simp only []; omega

theorem nidhi_go_sleeps_eq (oracle : Nat → HttpResult Json) :
    ∀ remaining attempt, ∀ s ∈ (nidhi_cg_go oracle remaining attempt).sleeps, s = 1
  | 0, _ => by simp [nidhi_cg_go]
  | (m + 1), attempt => by
      have ih := nidhi_go_sleeps_eq oracle m (attempt + 1)
      cases h : oracle attempt with
      | exn =>
          simp only [nidhi_cg_go, h, List.mem_cons]
          rintro s (rfl | hmem)
          · rfl
          · exact ih s hmem
      | status c b =>
          simp only [nidhi_cg_go, h]
          split
          · simp
          · exact fun s hmem => ih s hmem

theorem nidhi_go_all_exn (oracle : Nat → HttpResult Json)
    (h : ∀ i, oracle i = HttpResult.exn) :
    ∀ remaining attempt,
      nidhi_cg_go oracle remaining attempt = ⟨none, remaining, List.replicate remaining 1⟩
  | 0, _ => by simp [nidhi_cg_go]
  | (m + 1), attempt => by
      have ih := nidhi_go_all_exn oracle h m (attempt + 1)
      simp [nidhi_cg_go, h attempt, ih, List.replicate_succ]

theorem nidhi_go_all_bad_status (oracle : Nat → HttpResult Json)
    (h : ∀ i, ∃ c b, oracle i = HttpResult.status c b ∧ c ≠ 200) :
    ∀ remaining attempt, nidhi_cg_go oracle remaining attempt = ⟨none, remaining, []⟩
  | 0, _ => by simp [nidhi_cg_go]
  | (m + 1), attempt => by
      have ih := nidhi_go_all_bad_status oracle h m (attempt + 1)
      obtain ⟨c, b, he, hc⟩ := h attempt
      simp [nidhi_cg_go, he, hc, ih]

theorem nidhi_go_all_fail_result (oracle : Nat → HttpResult Json)
    (hfail : ∀ i, (oracle i).failed) :
    ∀ remaining attempt, (nidhi_cg_go oracle remaining attempt).result = none
  | 0, _ => by simp [nidhi_cg_go]
  | (m + 1), attempt => by
      have ih := nidhi_go_all_fail_result oracle hfail m (attempt + 1)
      cases h : oracle attempt with
      | exn => simp [nidhi_cg_go, h, ih]
      | status c b =>
          have hc := hfail attempt
          rw [h] at hc
          simp only [HttpResult.failed] at hc
          simp [nidhi_cg_go, h, ih, show ¬ c = 200 by omega]

/-! Claim theorems: router. -/

/-- C1: for every page-selector value that does not name one of the four
known token modules, the Router renders the landing view (absent or empty
selector) or an explicit module-load error notice, and the try/except around
load_student_page means no unhandled failure reaches the visitor: the route
function is total into the enumerated render outcomes. -/
theorem C1_router_unknown_selector_safe (sel : Option String)
    (h : ∀ s, sel = some s → s ∉ knownStudentModules) :
    route studentsEnv sel = RouteResult.landing ∨
      ∃ n, route studentsEnv sel = RouteResult.loadErrorNotice n := by
  cases sel with
  | none => exact Or.inl rfl
  | some s =>
      have hnot : s ∉ knownStudentModules := h s rfl
      cases he : (s == "") with
      | true => exact Or.inl (by simp [route, he])
      | false =>
          refine Or.inr ⟨s, ?_⟩
          simp [route, he, load_student_page, studentsEnv, hnot]

/-- Witness for C1 at the concrete unknown selector bogus. -/
theorem C1_witness :
    route studentsEnv (some ("bogus")) = RouteResult.landing ∨
      ∃ n, route studentsEnv (some ("bogus")) = RouteResult.loadErrorNotice n :=
  C1_router_unknown_selector_safe (some ("bogus"))
    (by intro s hs; cases hs; decide)

/-- C5 counterexample: the claim says every selector not naming one of the
four known tokens renders the landing view, but the router sends any
non-empty unknown selector through load_student_page, which renders a
module-load error notice, not the landing view. -/
theorem C5_counterexample :
    route studentsEnv (some ("unknown_token")) =
      RouteResult.loadErrorNotice ("unknown_token") ∧
    RouteResult.loadErrorNotice ("unknown_token") ≠ RouteResult.landing := by
  constructor
  · decide
  · decide

/-- C5 amended: the Router reads the single student selector; a selector
naming one of the four known modules delegates to that module app entry; an
absent or empty selector renders the landing view; any other non-empty
selector renders a module-load error notice instead of the landing view. -/
theorem C5_amended_routing :
    (∀ s ∈ knownStudentModules, route studentsEnv (some s) = RouteResult.renderedApp s) ∧
    route studentsEnv none = RouteResult.landing ∧
    route studentsEnv (some ("")) = RouteResult.landing ∧
    (∀ s, s ≠ "" → s ∉ knownStudentModules →
      route studentsEnv (some s) = RouteResult.loadErrorNotice s) := by
  refine ⟨?_, rfl, by decide, ?_⟩
  · intro s hs
    simp only [knownStudentModules, List.mem_cons, List.mem_singleton] at hs
    rcases hs with rfl | rfl | rfl | rfl | h
    · decide
    · decide
    · decide
    · decide
    · simp at h
  · intro s hne hnot
    have he : (s == "") = false := by
      cases hb : (s == "") with
      | true => exact absurd (by simpa using hb) hne
      | false => rfl
    simp [route, he, load_student_page, studentsEnv, hnot]

/-- Witness for C5 amended at concrete selectors. -/
theorem C5_witness :
    route studentsEnv (some ("student_twinkle")) =
      RouteResult.renderedApp ("student_twinkle") ∧
    route studentsEnv (some ("btc")) = RouteResult.loadErrorNotice ("btc") :=
  ⟨C5_amended_routing.1 ("student_twinkle") (by decide),
   C5_amended_routing.2.2.2 ("btc") (by decide) (by decide)⟩

/-- C9: a student parameter that is present but equal to the empty string is
treated exactly like an absent parameter, because the router tests the
selector for truthiness, not presence: both render the landing view, for
every import environment. -/
theorem C9_empty_selector_is_landing :
    ∀ env : ImportEnv, route env (some ("")) = RouteResult.landing ∧
      route env none = RouteResult.landing := by
  intro env
  exact ⟨by simp [route], rfl⟩

/-! Claim theorems: cache time-to-live configuration. -/

/-- C6 counterexample: the claim says every token module caches its live
price snapshot with the fastest expiry of 5 minutes (300 seconds); the
Solana module caches it for 1200 seconds, which is not 300, and its
prediction cache (900 seconds) expires faster than its live price cache,
so the live snapshot is not the fastest either; the XRP module uses 600
seconds for the live snapshot. -/
theorem C6_counterexample :
    nidhi_get_live_price_ttl = 1200 ∧
    nidhi_get_live_price_ttl ≠ 300 ∧
    nidhi_fetch_prediction_ttl < nidhi_get_live_price_ttl ∧
    rohan_get_live_market_ttl = 600 ∧
    rohan_get_live_market_ttl ≠ 300 := by
  decide

/-- C6 amended: in the Ethereum and Bitcoin modules the live snapshot cache
expires fastest at 300 seconds (5 minutes) with the metadata and historical
caches at 600 seconds; in the XRP module all four caches use 600 seconds;
in the Solana module the live price and market-chart caches use 1200 seconds
while the OHLC and metadata caches use 1800 seconds (and the prediction
cache uses 900 seconds, below the live price cache). -/
theorem C6_amended_ttls :
    twinkle_get_live_market_ttl = 300 ∧
    twinkle_get_live_market_ttl < twinkle_get_metadata_ttl ∧
    twinkle_get_live_market_ttl < twinkle_get_ohlc_ttl ∧
    twinkle_get_live_market_ttl < twinkle_get_market_chart_ttl ∧
    twinkle_get_metadata_ttl = 600 ∧
    twinkle_get_ohlc_ttl = 600 ∧
    twinkle_get_market_chart_ttl = 600 ∧
    paul_cg_live_ttl = 300 ∧
    paul_cg_live_ttl < paul_cg_metadata_ttl ∧
    paul_cg_live_ttl < paul_cg_ohlc_ttl ∧
    paul_cg_live_ttl < paul_cg_market_chart_ttl ∧
    paul_cg_ohlc_ttl = 600 ∧
    paul_cg_market_chart_ttl = 600 ∧
    paul_cg_metadata_ttl = 600 ∧
    rohan_get_live_market_ttl = 600 ∧
    rohan_get_ohlc_ttl = 600 ∧
    rohan_get_market_chart_ttl = 600 ∧
    rohan_get_metadata_ttl = 600 ∧
    nidhi_get_live_price_ttl = 1200 ∧
    nidhi_get_market_chart_ttl = 1200 ∧
    nidhi_get_ohlc_ttl = 1800 ∧
    nidhi_get_metadata_ttl = 1800 ∧
    nidhi_fetch_prediction_ttl = 900 := by
  decide

/-! Claim theorems: cache behaviour (modelled from the spec). -/

/-- C2: over the spec-modelled cache, an entry older than its time-to-live
is never returned (whenever a lookup yields a value, the found entry is
still before its expiry timestamp), and two cached calls for the same key
within the time-to-live window issue at most one upstream request in total,
the second call reusing the memoized payload whenever the first call
fetched. -/
theorem C2_cache_ttl_memoization {κ α : Type} [DecidableEq κ]
    (upstream : κ → α) (ttl : Nat) (entries : List (CacheEntry κ α))
    (k : κ) (t1 t2 : Nat) (h12 : t1 ≤ t2) (hwin : t2 < t1 + ttl) :
    (∀ now q (v : α), cache_lookup entries ttl now q = some v →
      ∃ e ∈ entries, e.key = q ∧ e.value = v ∧ now < e.storedAt + ttl) ∧
    (cached_call upstream ttl entries k t1).2.2 +
      (cached_call upstream ttl
        (cached_call upstream ttl entries k t1).2.1 k t2).2.2 ≤ 1 ∧
    ((cached_call upstream ttl entries k t1).2.2 = 1 →
      (cached_call upstream ttl
          (cached_call upstream ttl entries k t1).2.1 k t2).1 =
        (cached_call upstream ttl entries k t1).1 ∧
      (cached_call upstream ttl
          (cached_call upstream ttl entries k t1).2.1 k t2).2.2 = 0) := by
  refine ⟨?_, ?_⟩
  · intro now q v hlook
    unfold cache_lookup at hlook
    cases hfind : entries.find? (fun e => e.key == q) with
    | none => rw [hfind] at hlook; exact absurd hlook (by simp)
    | some e =>
        rw [hfind] at hlook
        have hmem : e ∈ entries := List.mem_of_find?_eq_some hfind
        have hkey := List.find?_some hfind
        simp only [beq_iff_eq] at hkey
        by_cases hexp : now < e.storedAt + ttl
        · refine ⟨e, hmem, hkey, ?_, hexp⟩
          simp [hexp] at hlook
          exact hlook
        · simp [hexp] at hlook
  · have hlk2 : cache_lookup
        (⟨k, upstream k, t1⟩ :: entries) ttl t2 k = some (upstream k) := by
      unfold cache_lookup
      simp [List.find?_cons, show t2 < t1 + ttl from hwin]
    unfold cached_call
    cases hl1 : cache_lookup entries ttl t1 k with
    | some v =>
        simp only []
        cases hl2 : cache_lookup entries ttl t2 k <;> simp
    | none =>
        simp only [hlk2]
        simp

/-- Witness for C2 at a concrete instantiation: the empty cache, the
live-market time-to-live of the Ethereum module, and two calls at times 0
and 100. -/
theorem C2_witness :
    (cached_call (fun _ => (42 : Nat)) twinkle_get_live_market_ttl
        ([] : List (CacheEntry String Nat)) ("simple/price") 0).2.2 +
      (cached_call (fun _ => (42 : Nat)) twinkle_get_live_market_ttl
        (cached_call (fun _ => (42 : Nat)) twinkle_get_live_market_ttl
          ([] : List (CacheEntry String Nat)) ("simple/price") 0).2.1
        ("simple/price") 100).2.2 ≤ 1 :=
  (C2_cache_ttl_memoization (fun _ => (42 : Nat)) twinkle_get_live_market_ttl
    ([] : List (CacheEntry String Nat)) ("simple/price") 0 100
    (by decide) (by decide)).2.1

/-! Claim theorems: fetch retry policy. -/

/-- C3 counterexample: the claim says every fetcher retries up to 3 attempts
with a fixed 1 to 2 unit delay, but the XRP fetcher issues exactly one GET
attempt, sleeps never, and gives up immediately on a transport failure. -/
theorem C3_counterexample :
    (rohan_fetch HttpResult.exn).requests = 1 ∧
    (rohan_fetch HttpResult.exn).sleeps = [] ∧
    (rohan_fetch HttpResult.exn).result = none ∧
    (rohan_fetch HttpResult.exn).requests ≠ 3 := by
  exact ⟨rfl, rfl, rfl, by decide⟩

/-- C3 amended: the Ethereum and Bitcoin fetchers retry up to 3 attempts,
exactly 3 on persistent failure, with fixed inter-attempt delays of 2 and
1.2 units respectively; the Ethereum fetcher treats transport failures and
HTTP error statuses identically; the Solana CoinGecko fetcher makes up to 3
attempts, sleeping 1 unit only after transport exceptions and not after
non-success statuses; the XRP fetcher makes exactly 1 attempt with no retry
and no delay. -/
theorem C3_amended_retry_policy :
    (∀ oracle : Nat → HttpResult Json,
      (twinkle_fetch oracle).requests ≤ 3 ∧
      (∀ s ∈ (twinkle_fetch oracle).sleeps, s = 2) ∧
      twinkle_fetch (fun i => collapse_failure (oracle i)) = twinkle_fetch oracle) ∧
    (∀ oracle, (∀ i, (oracle i).failed) →
      twinkle_fetch oracle = ⟨none, 3, [2, 2]⟩) ∧
    (∀ oracle : Nat → HttpResult Json,
      (paul_fetch oracle).requests ≤ 3 ∧
      (∀ s ∈ (paul_fetch oracle).sleeps, s = 6 / 5)) ∧
    (∀ oracle, (∀ i, (oracle i).failed) →
      (paul_fetch oracle).requests = 3 ∧ (paul_fetch oracle).sleeps = [6 / 5, 6 / 5]) ∧
    (∀ oracle : Nat → HttpResult Json,
      (nidhi_fetch_coingecko oracle).requests ≤ 3 ∧
      (∀ s ∈ (nidhi_fetch_coingecko oracle).sleeps, s = 1)) ∧
    (∀ oracle, (∀ i, oracle i = HttpResult.exn) →
      nidhi_fetch_coingecko oracle = ⟨none, 3, [1, 1, 1]⟩) ∧
    (∀ oracle, (∀ i, ∃ c b, oracle i = HttpResult.status c b ∧ c ≠ 200) →
      nidhi_fetch_coingecko oracle = ⟨none, 3, []⟩) ∧
    (∀ r : HttpResult Json, (rohan_fetch r).requests = 1 ∧ (rohan_fetch r).sleeps = []) := by
  refine ⟨?_, ?_, ?_, ?_, ?_, ?_, ?_, ?_⟩
  · intro oracle
    exact ⟨twinkle_go_requests_le oracle 2 3 0, twinkle_go_sleeps_eq oracle 2 3 0,
      twinkle_go_collapse oracle 2 3 0⟩
  · intro oracle h
    show twinkle_fetch_go oracle 2 3 0 = _
    rw [twinkle_go_all_fail oracle 2 h 3 0 (by omega)]
    rfl
  · intro oracle
    exact ⟨paul_go_requests_le oracle (6 / 5) 3 0, paul_go_sleeps_eq oracle (6 / 5) 3 0⟩
  · intro oracle h
    obtain ⟨_, hreq, hsl⟩ := paul_go_all_fail oracle (6 / 5) h 3 0 (by omega)
    refine ⟨hreq, ?_⟩
    rw [show (paul_fetch oracle).sleeps =
      (paul_fetch_go oracle (6 / 5) 3 0).sleeps from rfl, hsl]
    rfl
  · intro oracle
    exact ⟨nidhi_go_requests_le oracle 3 0, nidhi_go_sleeps_eq oracle 3 0⟩
  · intro oracle h
    show nidhi_cg_go oracle 3 0 = _
    rw [nidhi_go_all_exn oracle h 3 0]
    rfl
  · intro oracle h
    exact nidhi_go_all_bad_status oracle h 3 0
  · intro r
    cases r with
    | exn => exact ⟨rfl, rfl⟩
    | status c b =>
        constructor
        · show (if c < 400 then (⟨some b, 1, []⟩ : FetchTrace Json)
            else ⟨none, 1, []⟩).requests = 1
          split <;> rfl
        · show (if c < 400 then (⟨some b, 1, []⟩ : FetchTrace Json)
            else ⟨none, 1, []⟩).sleeps = []
          split <;> rfl

/-- Witness for C3 amended at concrete oracles: persistent transport
failure, persistent non-success status, and the single-shot XRP fetch. -/
theorem C3_witness :
    twinkle_fetch (fun _ => HttpResult.exn) = ⟨none, 3, [2, 2]⟩ ∧
    (paul_fetch (fun _ => HttpResult.exn)).requests = 3 ∧
    nidhi_fetch_coingecko (fun _ => HttpResult.exn) = ⟨none, 3, [1, 1, 1]⟩ ∧
    nidhi_fetch_coingecko (fun _ => HttpResult.status 429 Json.null) = ⟨none, 3, []⟩ ∧
    (rohan_fetch HttpResult.exn).requests = 1 :=
  ⟨C3_amended_retry_policy.2.1 (fun _ => HttpResult.exn) (fun _ => True.intro),
   (C3_amended_retry_policy.2.2.2.1 (fun _ => HttpResult.exn) (fun _ => True.intro)).1,
   C3_amended_retry_policy.2.2.2.2.2.1 (fun _ => HttpResult.exn) (fun _ => rfl),
   C3_amended_retry_policy.2.2.2.2.2.2.1 (fun _ => HttpResult.status 429 Json.null)
     (fun _ => ⟨429, Json.null, rfl, by decide⟩),
   (C3_amended_retry_policy.2.2.2.2.2.2.2 HttpResult.exn).1⟩

/-- C4: when the upstream fails on every attempt, each fetch helper returns
its defined absence signal to the caller and, being a total function over
the attempt outcomes with every exception handled inside, never raises past
the fetch boundary: None for the Ethereum, XRP and Solana helpers, and the
sentinel error dictionary for the Bitcoin helper. -/
theorem C4_fetch_failure_returns_absence (oracle : Nat → HttpResult Json)
    (r : HttpResult Json) (ho : ∀ i, (oracle i).failed) (hr : r.failed) :
    (twinkle_fetch oracle).result = none ∧
    (∃ msg, (paul_fetch oracle).result = some (Json.obj [("__error__", Json.str msg)])) ∧
    (rohan_fetch r).result = none ∧
    (nidhi_fetch_coingecko oracle).result = none ∧
    nidhi_fetch_prediction r = none ∧
    nidhi_get_model_info r = none := by
  refine ⟨?_, ?_, ?_, ?_, ?_, ?_⟩
  · show (twinkle_fetch_go oracle 2 3 0).result = none
    rw [twinkle_go_all_fail oracle 2 ho 3 0 (by omega)]
  · obtain ⟨⟨rr, hrr⟩, _, _⟩ := paul_go_all_fail oracle (6 / 5) ho 3 0 (by omega)
    exact ⟨paul_describe_error rr, by simpa [paul_fetch, paul_error_json] using hrr⟩
  · cases r with
    | exn => rfl
    | status c b =>
        simp only [HttpResult.failed] at hr
        simp [rohan_fetch, show ¬ c < 400 by omega]
  · exact nidhi_go_all_fail_result oracle ho 3 0
  · cases r with
    | exn => rfl
    | status c b =>
        simp only [HttpResult.failed] at hr
        simp [nidhi_fetch_prediction, show ¬ c = 200 by omega]
  · cases r with
    | exn => rfl
    | status c b =>
        simp only [HttpResult.failed] at hr
        simp [nidhi_get_model_info, show ¬ c = 200 by omega]

/-- Witness for C4 at a persistently failing oracle. -/
theorem C4_witness :
    (twinkle_fetch (fun _ => HttpResult.exn)).result = none ∧
    (∃ msg, (paul_fetch (fun _ => HttpResult.exn)).result =
      some (Json.obj [("__error__", Json.str msg)])) ∧
    (rohan_fetch HttpResult.exn).result = none ∧
    (nidhi_fetch_coingecko (fun _ => HttpResult.exn)).result = none ∧
    nidhi_fetch_prediction HttpResult.exn = none ∧
    nidhi_get_model_info HttpResult.exn = none :=
  C4_fetch_failure_returns_absence (fun _ => HttpResult.exn) HttpResult.exn
    (fun _ => True.intro) True.intro

/-- C10: in the Bitcoin module, exhausting the retries yields a dictionary
holding the key __error__ (a truthy dict, not None), and every downstream
consumer guards on the payload shape: the candlestick and line-series
builders accept only non-empty lists, the snapshot requires a dict holding
the bitcoin key, the fundamentals require a dict holding the name key, so a
render fed only sentinel error payloads emits no data panel at all. -/
theorem C10_paul_error_sentinel_guards (oracle : Nat → HttpResult Json)
    (e : HttpResult Json) (run : Bool) (ho : ∀ i, (oracle i).failed) :
    (∃ msg, (paul_fetch oracle).result = some (Json.obj [("__error__", Json.str msg)]) ∧
      Json.truthy (Json.obj [("__error__", Json.str msg)]) = true ∧
      Json.hasMember (Json.obj [("__error__", Json.str msg)]) "__error__" = true) ∧
    paul_candlestick (paul_error_json e) = none ∧
    paul_line_series (paul_error_json e) = none ∧
    (Json.isDict (paul_error_json e) && Json.hasMember (paul_error_json e) "bitcoin") = false ∧
    (Json.isDict (paul_error_json e) && Json.hasMember (paul_error_json e) "name") = false ∧
    countDataPanels (paul_app run (paul_error_json e) (paul_error_json e)
      (paul_error_json e) (paul_error_json e) (paul_error_json e)) = 0 := by
  refine ⟨?_, ?_, ?_, ?_, ?_, ?_⟩
  · obtain ⟨⟨rr, hrr⟩, _, _⟩ := paul_go_all_fail oracle (6 / 5) ho 3 0 (by omega)
    refine ⟨paul_describe_error rr, by simpa [paul_fetch, paul_error_json] using hrr, rfl, ?_⟩
    simp [Json.hasMember]
  · rfl
  · rfl
  · simp [paul_error_json, Json.isDict, Json.hasMember]
  · simp [paul_error_json, Json.isDict, Json.hasMember]
  · cases run <;>
      simp [paul_app, paul_error_json, paul_mc_section, paul_candlestick,
        Json.isDict, Json.hasMember, Json.getKey, Json.truthyOpt, chartPieces,
        countDataPanels, isDataPanel, List.countP_append, List.countP_cons]

/-- Witness for C10 at a persistently failing oracle, with the button
pressed. -/
theorem C10_witness :
    (∃ msg, (paul_fetch (fun _ => HttpResult.exn)).result =
        some (Json.obj [("__error__", Json.str msg)]) ∧
      Json.truthy (Json.obj [("__error__", Json.str msg)]) = true ∧
      Json.hasMember (Json.obj [("__error__", Json.str msg)]) "__error__" = true) ∧
    paul_candlestick (paul_error_json HttpResult.exn) = none ∧
    paul_line_series (paul_error_json HttpResult.exn) = none ∧
    (Json.isDict (paul_error_json HttpResult.exn) &&
      Json.hasMember (paul_error_json HttpResult.exn) "bitcoin") = false ∧
    (Json.isDict (paul_error_json HttpResult.exn) &&
      Json.hasMember (paul_error_json HttpResult.exn) "name") = false ∧
    countDataPanels (paul_app true (paul_error_json HttpResult.exn)
      (paul_error_json HttpResult.exn) (paul_error_json HttpResult.exn)
      (paul_error_json HttpResult.exn) (paul_error_json HttpResult.exn)) = 0 :=
  C10_paul_error_sentinel_guards (fun _ => HttpResult.exn) HttpResult.exn true
    (fun _ => True.intro)

/-! Helper lemmas about render traces. -/

theorem countP_ite (p : Piece → Bool) (b : Bool) (l1 l2 : List Piece) :
    (if b then l1 else l2).countP p = if b then l1.countP p else l2.countP p := by
  cases b <;> rfl

theorem countP_ite_prop (p : Piece → Bool) (c : Prop) [Decidable c]
    (l1 l2 : List Piece) :
    (if c then l1 else l2).countP p = if c then l1.countP p else l2.countP p := by
  by_cases h : c <;> simp [h]

theorem filter_ite (p : Piece → Bool) (b : Bool) (l1 l2 : List Piece) :
    (if b then l1 else l2).filter p = if b then l1.filter p else l2.filter p := by
  cases b <;> rfl

theorem countP_isWarmup_chartPieces (o : Option Json) :
    (chartPieces o).countP isWarmup = 0 := by
  cases o <;> rfl

theorem countP_isSnapshotPanel_chartPieces (o : Option Json) :
    (chartPieces o).countP isSnapshotPanel = 0 := by
  cases o <;> rfl

theorem countP_isSnapshotNotice_chartPieces (o : Option Json) :
    (chartPieces o).countP isSnapshotNotice = 0 := by
  cases o <;> rfl

theorem filter_notSnapshot_chartPieces (o : Option Json) :
    (chartPieces o).filter (fun p => !isSnapshotPiece p) = chartPieces o := by
  cases o <;> rfl

theorem filter_snapshot_chunk (b : Bool) (d : Json) (m : String) :
    (if b then [Piece.snapshotPanel d] else [Piece.snapshotNotice m]).filter
      (fun p => !isSnapshotPiece p) = [] := by
  cases b <;> rfl

theorem forall_mem_ite {α : Type} (P : α → Prop) (b : Bool) (l1 l2 : List α) :
    (∀ a ∈ (if b then l1 else l2), P a) ↔
      (if b then ∀ a ∈ l1, P a else ∀ a ∈ l2, P a) := by
  cases b <;> exact Iff.rfl

theorem forall_mem_ite_prop {α : Type} (P : α → Prop) (c : Prop) [Decidable c]
    (l1 l2 : List α) :
    (∀ a ∈ (if c then l1 else l2), P a) ↔
      ((c → ∀ a ∈ l1, P a) ∧ (¬c → ∀ a ∈ l2, P a)) := by
  by_cases h : c <;> simp [h]

theorem isWarmup_of_mem_chartPieces (o : Option Json) :
    ∀ a ∈ chartPieces o, isWarmup a = false := by
  cases o <;> simp [chartPieces, isWarmup]

theorem isSnapshotNotice_of_mem_chartPieces (o : Option Json) :
    ∀ a ∈ chartPieces o, isSnapshotNotice a = false := by
  cases o <;> simp [chartPieces, isSnapshotNotice]

theorem isSnapshotPanel_of_mem_chartPieces (o : Option Json) :
    ∀ a ∈ chartPieces o, isSnapshotPanel a = false := by
  cases o <;> simp [chartPieces, isSnapshotPanel]

/-! Claim theorems: warm-up trigger. -/

/-- C7 counterexample: the claim says every token view issues exactly one
warm-up request to its prediction endpoint on entry, but the Solana view
spawns no warm-up at all (and neither do the XRP and Bitcoin views). -/
theorem C7_counterexample :
    countWarmups (nidhi_app none none none none none none) = 0 ∧ (0 : Nat) ≠ 1 := by
  exact ⟨rfl, by decide⟩

/-- C7 amended: only the Ethereum view spawns a warm-up on entry, exactly
one, as a detached background thread whose result is discarded; the warm-up
call itself issues one request and swallows every failure without raising;
the Solana, XRP and Bitcoin views spawn no warm-up at all. -/
theorem C7_amended_warmup :
    (∀ today live ohlc mc meta,
      countWarmups (twinkle_app today live ohlc mc meta) = 1) ∧
    (∀ pred live meta info ohlc mc,
      countWarmups (nidhi_app pred live meta info ohlc mc) = 0) ∧
    (∀ run presp live ohlc mc meta,
      countWarmups (rohan_app run presp live ohlc mc meta) = 0) ∧
    (∀ run res mk ohlc mc meta,
      countWarmups (paul_app run res mk ohlc mc meta) = 0) ∧
    (∀ r, twinkle_warm_fastapi r = ⟨1, false⟩) := by
  refine ⟨?_, ?_, ?_, ?_, ?_⟩
  · intro today live ohlc mc meta
    unfold twinkle_app twinkle_mc_section
    simp [countWarmups, List.countP_append, List.countP_cons, countP_ite, countP_ite_prop,
      isWarmup, countP_isWarmup_chartPieces, ite_self]
  · intro pred live meta info ohlc mc
    unfold nidhi_app nidhi_mc_section
    simp [countWarmups, List.countP_append, List.countP_cons, countP_ite, countP_ite_prop,
      isWarmup, countP_isWarmup_chartPieces, ite_self]
  · intro run presp live ohlc mc meta
    cases presp <;>
    · unfold rohan_app rohan_mc_section
      simp [countWarmups, List.countP_append, List.countP_cons, countP_ite, countP_ite_prop,
        isWarmup, countP_isWarmup_chartPieces, ite_self, forall_mem_ite,
        forall_mem_ite_prop, isWarmup_of_mem_chartPieces]
  · intro run res mk ohlc mc meta
    unfold paul_app paul_mc_section
    cases hfig : paul_candlestick ohlc <;>
      simp [countWarmups, List.countP_append, List.countP_cons, countP_ite, countP_ite_prop,
        isWarmup, countP_isWarmup_chartPieces, ite_self, forall_mem_ite,
        forall_mem_ite_prop, isWarmup_of_mem_chartPieces]
  · intro r
    cases r <;> rfl

/-! Claim theorems: partial-failure independence of the snapshot section. -/

/-- C8: in each of the four views, when the Market Snapshot payload is
absent the view renders exactly one one-line snapshot advisory notice and no
snapshot panel, and the pieces contributed by every other section (OHLC,
time series, prediction, fundamentals, model info) are exactly the same as
for any other snapshot payload: removing the snapshot section from the trace
yields a list that does not depend on the snapshot payload at all. -/
theorem C8_snapshot_failure_independence :
    (∀ today ohlc mc meta,
      countSnapshotNotices (twinkle_app today none ohlc mc meta) = 1 ∧
      countSnapshotPanels (twinkle_app today none ohlc mc meta) = 0) ∧
    (∀ today live ohlc mc meta,
      nonSnapshot (twinkle_app today live ohlc mc meta) =
        nonSnapshot (twinkle_app today none ohlc mc meta)) ∧
    (∀ pred meta info ohlc mc,
      countSnapshotNotices (nidhi_app pred none meta info ohlc mc) = 1 ∧
      countSnapshotPanels (nidhi_app pred none meta info ohlc mc) = 0) ∧
    (∀ pred live meta info ohlc mc,
      nonSnapshot (nidhi_app pred live meta info ohlc mc) =
        nonSnapshot (nidhi_app pred none meta info ohlc mc)) ∧
    (∀ run presp ohlc mc meta,
      countSnapshotNotices (rohan_app run presp none ohlc mc meta) = 1 ∧
      countSnapshotPanels (rohan_app run presp none ohlc mc meta) = 0) ∧
    (∀ run presp live ohlc mc meta,
      nonSnapshot (rohan_app run presp live ohlc mc meta) =
        nonSnapshot (rohan_app run presp none ohlc mc meta)) ∧
    (∀ run res ohlc mc meta,
      countSnapshotNotices (paul_app run res Json.null ohlc mc meta) = 1 ∧
      countSnapshotPanels (paul_app run res Json.null ohlc mc meta) = 0) ∧
    (∀ run res mk ohlc mc meta,
      nonSnapshot (paul_app run res mk ohlc mc meta) =
        nonSnapshot (paul_app run res Json.null ohlc mc meta)) := by
  refine ⟨?_, ?_, ?_, ?_, ?_, ?_, ?_, ?_⟩
  · intro today ohlc mc meta
    constructor <;>
    · unfold twinkle_app twinkle_mc_section
      simp [countSnapshotNotices, countSnapshotPanels, snapshotGuard,
        List.countP_append, List.countP_cons, countP_ite, countP_ite_prop, ite_self,
        isSnapshotNotice, isSnapshotPanel, forall_mem_ite, forall_mem_ite_prop,
        countP_isSnapshotNotice_chartPieces, countP_isSnapshotPanel_chartPieces,
        isSnapshotNotice_of_mem_chartPieces, isSnapshotPanel_of_mem_chartPieces]
  · intro today live ohlc mc meta
    unfold twinkle_app
    simp only [nonSnapshot, List.filter_append, filter_snapshot_chunk,
      List.nil_append, List.append_nil]
  · intro pred meta info ohlc mc
    constructor <;>
    · unfold nidhi_app nidhi_mc_section
      simp [countSnapshotNotices, countSnapshotPanels, snapshotGuard,
        List.countP_append, List.countP_cons, countP_ite, countP_ite_prop, ite_self,
        isSnapshotNotice, isSnapshotPanel, forall_mem_ite, forall_mem_ite_prop,
        countP_isSnapshotNotice_chartPieces, countP_isSnapshotPanel_chartPieces,
        isSnapshotNotice_of_mem_chartPieces, isSnapshotPanel_of_mem_chartPieces]
  · intro pred live meta info ohlc mc
    unfold nidhi_app
    simp only [nonSnapshot, List.filter_append, filter_snapshot_chunk,
      List.nil_append, List.append_nil]
  · intro run presp ohlc mc meta
    constructor <;>
    · cases presp <;>
      · unfold rohan_app rohan_mc_section
        simp [countSnapshotNotices, countSnapshotPanels, snapshotGuard,
          List.countP_append, List.countP_cons, countP_ite, countP_ite_prop, ite_self,
          isSnapshotNotice, isSnapshotPanel, forall_mem_ite, forall_mem_ite_prop,
          countP_isSnapshotNotice_chartPieces, countP_isSnapshotPanel_chartPieces,
          isSnapshotNotice_of_mem_chartPieces, isSnapshotPanel_of_mem_chartPieces]
  · intro run presp live ohlc mc meta
    unfold rohan_app
    simp only [nonSnapshot, List.filter_append, filter_snapshot_chunk,
      List.nil_append, List.append_nil]
  · intro run res ohlc mc meta
    constructor <;>
    · unfold paul_app paul_mc_section
      cases hfig : paul_candlestick ohlc <;>
        simp [countSnapshotNotices, countSnapshotPanels, Json.isDict, Json.hasMember,
          List.countP_append, List.countP_cons, countP_ite, countP_ite_prop, ite_self,
          isSnapshotNotice, isSnapshotPanel, forall_mem_ite, forall_mem_ite_prop,
          countP_isSnapshotNotice_chartPieces, countP_isSnapshotPanel_chartPieces,
          isSnapshotNotice_of_mem_chartPieces, isSnapshotPanel_of_mem_chartPieces]
  · intro run res mk ohlc mc meta
    unfold paul_app
    simp only [nonSnapshot, List.filter_append, filter_snapshot_chunk,
      List.nil_append, List.append_nil]
